import Mathlib

/-!
Verification development for the kusa resource-reconciliation engine.

Shallow embedding conventions:
- Go float64 values (percentages, MiB amounts) are modelled as rationals;
  every division performed by the embedded code is guarded by a nonzero
  denominator check in the source, so rational semantics agrees with the
  real-number reading of the source on all executed paths.
- Go int64 values (millicores, counts, thresholds) are modelled as Int;
  Go integer division truncates toward zero, which is Int.tdiv.
- Go maps built by insertion are modelled as association lists; a lookup
  returns the last binding inserted for the key, matching Go overwrite
  semantics.
- The concurrent fetches are modelled as functions of the listing results:
  each API listing outcome is an explicit (Except String _) argument, and
  the errgroup discipline (core listing failure aborts, metrics listing
  failure only clears an availability flag) is encoded in the result type.
-/

namespace Kusa

/-- Health verdict for a resource dimension (analysis/verdict.go). -/
inductive Verdict where
  | massivelyOverRequested
  | overRequested
  | bursting
  | ok
deriving DecidableEq

/-- Display label of a verdict, as in the Go verdict value table. -/
def verdictLabel : Verdict → String
  | .massivelyOverRequested => "Massively over-requested"
  | .overRequested => "Over-requested"
  | .bursting => "Bursting"
  | .ok => "OK"

/-- ResourceVerdict returns the verdict given requested% and actual% usage
(analysis/verdict.go). -/
def ResourceVerdict (requestedPct actualPct : ℚ) : Verdict :=
  let diff := requestedPct - actualPct
  if diff > 50 then .massivelyOverRequested
  else if diff > 20 then .overRequested
  else if actualPct > requestedPct then .bursting
  else .ok

/-- FormatFactor returns the over-request factor string: "42x", "N/A"
(actual=0), or "no req" (req=0) (kube package). Go %d printing of an int64
agrees with toString on Int. -/
def FormatFactor (req actual : Int) : String :=
  if req = 0 then "no req"
  else if actual = 0 then "N/A"
  else toString (Int.tdiv req actual) ++ "x"

/-- meetsFactorFilter reports whether a req/actual pair satisfies a
--min-factor threshold (output/table.go). -/
def meetsFactorFilter (req actual : Int) (metricsAvail : Bool) (threshold : Int) : Bool :=
  if threshold = 0 then true
  else if req = 0 || !metricsAvail then false
  else if threshold < 0 then decide (actual > req)
  else if actual = 0 then true
  else decide (Int.tdiv req actual ≥ threshold)

/-- safePctInt: percentage of an int64 value over an int64 total, returning 0
when the total is 0 (output/table.go). -/
def safePctInt (value total : Int) : ℚ :=
  if total = 0 then 0
  else (value : ℚ) * 100 / (total : ℚ)

/-- safePctFloat: percentage of a float value over a float total, returning 0
when the total is 0 (output/table.go). -/
def safePctFloat (value total : ℚ) : ℚ :=
  if total = 0 then 0
  else value * 100 / total

/-- A rendered table cell; only the text matters for the verified claims,
colors are presentation-only. -/
structure CellValue where
  text : String
deriving DecidableEq

/-- naCell: the dimmed "N/A" cell (output/table.go). -/
def naCell : CellValue := ⟨"N/A"⟩

/-- verdictFromRatio computes a verdict cell by treating req as 100% and
expressing actual as a percentage of it (output/table.go). -/
def verdictFromRatio (req actual : ℚ) (metricsAvail : Bool) : CellValue :=
  if req = 0 then ⟨"no req"⟩
  else if !metricsAvail then naCell
  else ⟨verdictLabel (ResourceVerdict 100 (actual / req * 100))⟩

/-- SystemNamespaces lists namespaces excluded by default (kube package). -/
def SystemNamespaces (ns : String) : Bool :=
  ns == "kube-system" || ns == "kube-public" || ns == "kube-node-lease"

/-- One metav1.OwnerReference, restricted to the fields the code reads. -/
structure OwnerRef where
  Kind : String
  Name : String
deriving DecidableEq

/-- corev1.PodPhase values. -/
inductive PodPhase where
  | running
  | pending
  | succeeded
  | failed
  | unknown
deriving DecidableEq

/-- One container's resource requests and limits, with quantities already
converted as the code converts them: CPU in millicores (MilliValue), memory
in MiB; a quantity q with q.IsZero() corresponds to the value 0 here. -/
structure ContainerRes where
  cpuReq : Int
  cpuLim : Int
  memReq : ℚ
  memLim : ℚ
deriving DecidableEq

/-- A corev1.Pod, flattened to the fields the code reads. -/
structure Pod where
  Namespace : String
  Name : String
  NodeName : String
  Phase : PodPhase
  OwnerReferences : List OwnerRef
  Containers : List ContainerRes
deriving DecidableEq

/-- One container's observed usage from the metrics API (millicores / MiB). -/
structure UsageRes where
  cpu : Int
  mem : ℚ
deriving DecidableEq

/-- One PodMetrics item. -/
structure PodUsage where
  Namespace : String
  Name : String
  Containers : List UsageRes
deriving DecidableEq

/-- One NodeMetrics item. -/
structure NodeUsage where
  Name : String
  Usage : UsageRes
deriving DecidableEq

/-- A corev1.Node, flattened to the fields the code reads. -/
structure NodeSpec where
  Name : String
  AllocatableCPU : Int
  AllocatableMem : ℚ
deriving DecidableEq

/-- An appsv1.ReplicaSet, flattened to the fields the code reads. -/
structure ReplicaSetSpec where
  Namespace : String
  Name : String
  OwnerReferences : List OwnerRef
deriving DecidableEq

/-- PodInfo holds per-pod resource data (kube package). -/
structure PodInfo where
  Namespace : String
  Name : String
  NodeName : String
  CPURequest : Int
  CPULimit : Int
  MemRequest : ℚ
  MemLimit : ℚ
  CPUActual : Int
  MemActual : ℚ
  MetricsAvailable : Bool
deriving DecidableEq

/-- NodeInfo holds per-node resource data (kube package). -/
structure NodeInfo where
  Name : String
  AllocatableCPU : Int
  AllocatableMem : ℚ
  ActualCPU : Int
  ActualMem : ℚ
  MetricsAvailable : Bool
  RequestedCPU : Int
  RequestedMem : ℚ
  Pods : List PodInfo
deriving DecidableEq

/-- ownerKey identifies a workload controller (kube/workloads.go). -/
structure ownerKey where
  Kind : String
  Namespace : String
  Name : String
deriving DecidableEq

/-- WorkloadInfo holds aggregated resource data for a single workload
controller (kube/workloads.go). -/
structure WorkloadInfo where
  Kind : String
  Namespace : String
  Name : String
  PodCount : Nat
  CPURequest : Int
  CPUActual : Int
  MemRequest : ℚ
  MemActual : ℚ
  MetricsAvailable : Bool
deriving DecidableEq

/-- Whether a listing outcome succeeded. -/
def listingOk : Except String α → Bool
  | .ok _ => true
  | .error _ => false

/-- Lookup in an insertion-ordered association list with Go map overwrite
semantics: the last binding inserted for the key wins. -/
def lookupLast (l : List (String × α)) (k : String) : Option α :=
  ((l.filter (fun e => e.1 == k)).map (fun e => e.2)).getLast?

/-- The entries inserted into the node-metrics map, in insertion order. -/
def nodeMetricsEntries (l : List NodeUsage) : List (String × UsageRes) :=
  l.map (fun m => (m.Name, m.Usage))

/-- The entries inserted into a pod-metrics map, in insertion order; keys are
"namespace/pod-name". -/
def podMetricsEntries (l : List PodUsage) : List (String × PodUsage) :=
  l.map (fun m => (m.Namespace ++ "/" ++ m.Name, m))

/-- podInfoFromPod sums requests and limits over a pod's containers, adding a
quantity only when it is nonzero (kube package). -/
def podInfoFromPod (pod : Pod) : PodInfo :=
  pod.Containers.foldl
    (fun pi c =>
      let pi := if c.cpuReq ≠ 0 then { pi with CPURequest := pi.CPURequest + c.cpuReq } else pi
      let pi := if c.cpuLim ≠ 0 then { pi with CPULimit := pi.CPULimit + c.cpuLim } else pi
      let pi := if c.memReq ≠ 0 then { pi with MemRequest := pi.MemRequest + c.memReq } else pi
      if c.memLim ≠ 0 then { pi with MemLimit := pi.MemLimit + c.memLim } else pi)
    { Namespace := pod.Namespace, Name := pod.Name, NodeName := pod.NodeName,
      CPURequest := 0, CPULimit := 0, MemRequest := 0, MemLimit := 0,
      CPUActual := 0, MemActual := 0, MetricsAvailable := false }

/-- The running pods grouped under a given node name: FetchNodes keeps only
running pods with a nonempty NodeName, in pod-list order. -/
def podsByNode (pods : List Pod) (nodeName : String) : List Pod :=
  pods.filter (fun p =>
    decide (p.Phase = PodPhase.running) && (p.NodeName != "") && (p.NodeName == nodeName))

/-- Attach per-pod metrics from the pod-metrics map to a PodInfo, marking the
pod's availability flag when an entry is found (kube package). -/
def attachPodMetrics (podMetricsMap : List (String × PodUsage)) (pod : Pod)
    (pi : PodInfo) : PodInfo :=
  match lookupLast podMetricsMap (pod.Namespace ++ "/" ++ pod.Name) with
  | some pm =>
      pm.Containers.foldl
        (fun pi c =>
          { pi with CPUActual := pi.CPUActual + c.cpu, MemActual := pi.MemActual + c.mem })
        { pi with MetricsAvailable := true }
  | none => pi

/-- The body of the FetchNodes per-pod accumulation loop: build the pod's
summary, attach pod metrics when requested, and always add its requests to
the node totals. -/
def nodePodStep (podMetricsMap : List (String × PodUsage)) (withPodMetrics : Bool)
    (ni : NodeInfo) (pod : Pod) : NodeInfo :=
  let pi := podInfoFromPod pod
  let pi := if withPodMetrics then attachPodMetrics podMetricsMap pod pi else pi
  { ni with
    RequestedCPU := ni.RequestedCPU + pi.CPURequest,
    RequestedMem := ni.RequestedMem + pi.MemRequest,
    Pods := ni.Pods ++ [pi] }

/-- The per-node loop body of FetchNodes: node metrics lookup, then the fold
over the node's running pods accumulating requested totals and the per-pod
breakdown. -/
def buildNodeInfo (nodeMetricsMap : List (String × UsageRes))
    (podMetricsMap : List (String × PodUsage)) (withPodMetrics : Bool)
    (pods : List Pod) (node : NodeSpec) : NodeInfo :=
  let base : NodeInfo :=
    { Name := node.Name, AllocatableCPU := node.AllocatableCPU,
      AllocatableMem := node.AllocatableMem,
      ActualCPU := 0, ActualMem := 0, MetricsAvailable := false,
      RequestedCPU := 0, RequestedMem := 0, Pods := [] }
  let ni :=
    match lookupLast nodeMetricsMap node.Name with
    | some m => { base with ActualCPU := m.cpu, ActualMem := m.mem, MetricsAvailable := true }
    | none => base
  (podsByNode pods node.Name).foldl (nodePodStep podMetricsMap withPodMetrics) ni

/-- FetchNodesResult holds the result of FetchNodes. -/
structure FetchNodesResult where
  Nodes : List NodeInfo
  NodeMetricsAvailable : Bool
  PodMetricsAvailable : Bool
deriving DecidableEq

/-- FetchNodes, modelled as a function of the four listing outcomes. A core
listing failure (nodes, pods) propagates as an error; a metrics listing
failure only clears the availability flag. When withPodMetrics is false the
pod-metrics listing is never issued. When both core listings fail, Go
surfaces whichever goroutine returned first; the model deterministically
surfaces the nodes error, one of the possible schedules. -/
def FetchNodes (nodesRes : Except String (List NodeSpec))
    (podsRes : Except String (List Pod))
    (nodeMetricsRes : Except String (List NodeUsage))
    (podMetricsRes : Except String (List PodUsage))
    (withPodMetrics : Bool) : Except String FetchNodesResult :=
  match nodesRes with
  | .error e => .error ("failed to list nodes: " ++ e)
  | .ok nodes =>
    match podsRes with
    | .error e => .error ("failed to list pods: " ++ e)
    | .ok pods =>
      let nodeMetricsMap := nodeMetricsEntries (nodeMetricsRes.toOption.getD [])
      let podMetricsMap :=
        if withPodMetrics then podMetricsEntries (podMetricsRes.toOption.getD []) else []
      .ok { Nodes := nodes.map (buildNodeInfo nodeMetricsMap podMetricsMap withPodMetrics pods),
            NodeMetricsAvailable := listingOk nodeMetricsRes,
            PodMetricsAvailable := withPodMetrics && listingOk podMetricsRes }

/-- FetchPodsResult holds the result of FetchPods. -/
structure FetchPodsResult where
  Pods : List PodInfo
  MetricsAvailable : Bool
deriving DecidableEq

/-- The body of the FetchPods pod loop: skip a non-running pod, otherwise
build its PodInfo and attach metrics when the map has an entry. -/
def podsReportStep (podMetricsMap : List (String × PodUsage))
    (acc : List PodInfo) (pod : Pod) : List PodInfo :=
  if pod.Phase ≠ PodPhase.running then acc
  else acc ++ [attachPodMetrics podMetricsMap pod (podInfoFromPod pod)]

/-- The pod loop of FetchPods: skip non-running pods, build the PodInfo and
attach metrics when the map has an entry. -/
def fetchPodsAggregate (podMetricsMap : List (String × PodUsage))
    (pods : List Pod) : List PodInfo :=
  pods.foldl (podsReportStep podMetricsMap) []

/-- FetchPods, modelled as a function of the two listing outcomes; the pods
listing is fatal, the pod-metrics listing only drives the availability flag. -/
def FetchPods (podsRes : Except String (List Pod))
    (podMetricsRes : Except String (List PodUsage)) : Except String FetchPodsResult :=
  match podsRes with
  | .error e => .error ("failed to list pods: " ++ e)
  | .ok pods =>
    let podMetricsMap := podMetricsEntries (podMetricsRes.toOption.getD [])
    .ok { Pods := fetchPodsAggregate podMetricsMap pods,
          MetricsAvailable := listingOk podMetricsRes }

/-- The rsToDeployment map entries: for each replica set, its first owner
reference of kind Deployment yields a binding keyed by
"namespace/replicaset-name" (kube/workloads.go). -/
def rsToDeploymentEntries (replicaSets : List ReplicaSetSpec) : List (String × ownerKey) :=
  replicaSets.foldl
    (fun acc rs =>
      match rs.OwnerReferences.find? (fun ref => ref.Kind == "Deployment") with
      | some ref =>
          acc ++ [(rs.Namespace ++ "/" ++ rs.Name,
                   { Kind := "Deployment", Namespace := rs.Namespace, Name := ref.Name })]
      | none => acc)
    []

/-- The owner-reference scan of resolveWorkloadOwner: first recognized kind
wins; a ReplicaSet owner is upgraded to its Deployment via the pre-built
index when possible. -/
def resolveOwnerRefs (ns podName : String) (rsToDeployment : List (String × ownerKey)) :
    List OwnerRef → ownerKey
  | [] => { Kind := "Pod", Namespace := ns, Name := podName }
  | ref :: rest =>
    if ref.Kind == "ReplicaSet" then
      match lookupLast rsToDeployment (ns ++ "/" ++ ref.Name) with
      | some dep => dep
      | none => { Kind := "ReplicaSet", Namespace := ns, Name := ref.Name }
    else if ref.Kind == "StatefulSet" || ref.Kind == "DaemonSet" || ref.Kind == "Job" then
      { Kind := ref.Kind, Namespace := ns, Name := ref.Name }
    else
      resolveOwnerRefs ns podName rsToDeployment rest

/-- resolveWorkloadOwner walks a pod's ownerReferences to find its top-level
controller (kube/workloads.go). -/
def resolveWorkloadOwner (pod : Pod) (rsToDeployment : List (String × ownerKey)) : ownerKey :=
  resolveOwnerRefs pod.Namespace pod.Name rsToDeployment pod.OwnerReferences

/-- The owner-reference kinds the resolver recognizes (the switch cases of
resolveWorkloadOwner). -/
def recognizedOwnerKind (ref : OwnerRef) : Bool :=
  ref.Kind == "ReplicaSet" || ref.Kind == "StatefulSet"
    || ref.Kind == "DaemonSet" || ref.Kind == "Job"

/-- Membership test for the workload map. -/
def containsKey (m : List (String × WorkloadInfo)) (k : String) : Bool :=
  m.any (fun e => e.1 == k)

/-- In-place update of the workload map entry with the given key. -/
def updateValue (k : String) (f : WorkloadInfo → WorkloadInfo) :
    List (String × WorkloadInfo) → List (String × WorkloadInfo)
  | [] => []
  | e :: rest => if e.1 == k then (e.1, f e.2) :: rest else e :: updateValue k f rest

/-- A fresh workload map entry (the literal inserted by FetchWorkloads). -/
def newWorkload (owner : ownerKey) (metricsAvail : Bool) : WorkloadInfo :=
  { Kind := owner.Kind, Namespace := owner.Namespace, Name := owner.Name,
    PodCount := 0, CPURequest := 0, CPUActual := 0, MemRequest := 0, MemActual := 0,
    MetricsAvailable := metricsAvail }

/-- Add one container's nonzero CPU/memory requests to a workload entry. -/
def addContainerRequests (w : WorkloadInfo) (c : ContainerRes) : WorkloadInfo :=
  let w := if c.cpuReq ≠ 0 then { w with CPURequest := w.CPURequest + c.cpuReq } else w
  if c.memReq ≠ 0 then { w with MemRequest := w.MemRequest + c.memReq } else w

/-- Add one container's observed usage to a workload entry. -/
def addContainerUsage (w : WorkloadInfo) (c : UsageRes) : WorkloadInfo :=
  { w with CPUActual := w.CPUActual + c.cpu, MemActual := w.MemActual + c.mem }

/-- The per-pod mutation of a workload map entry in FetchWorkloads: bump the
pod count, add nonzero container requests, and, only when pod metrics were
available, add the pod's container usage. -/
def addPodToWorkload (metricsAvail : Bool) (podMetricsMap : List (String × PodUsage))
    (pod : Pod) (w : WorkloadInfo) : WorkloadInfo :=
  let w := { w with PodCount := w.PodCount + 1 }
  let w := pod.Containers.foldl addContainerRequests w
  if metricsAvail then
    match lookupLast podMetricsMap (pod.Namespace ++ "/" ++ pod.Name) with
    | some pm => pm.Containers.foldl addContainerUsage w
    | none => w
  else w

/-- The body of the FetchWorkloads pod loop: skip non-running pods and (when
system namespaces are excluded) system pods; otherwise resolve the owner,
insert a fresh map entry when the key is new, and fold the pod in. -/
def workloadStep (rsToDeployment : List (String × ownerKey))
    (podMetricsMap : List (String × PodUsage)) (metricsAvail includeSystem : Bool)
    (m : List (String × WorkloadInfo)) (pod : Pod) : List (String × WorkloadInfo) :=
  if pod.Phase ≠ PodPhase.running then m
  else if !includeSystem && SystemNamespaces pod.Namespace then m
  else
    let owner := resolveWorkloadOwner pod rsToDeployment
    let key := owner.Namespace ++ "/" ++ owner.Kind ++ "/" ++ owner.Name
    let m := if containsKey m key then m else m ++ [(key, newWorkload owner metricsAvail)]
    updateValue key (addPodToWorkload metricsAvail podMetricsMap pod) m

/-- The pod loop of FetchWorkloads over the workload map, as an insertion-
ordered association list. -/
def fetchWorkloadsAggregate (rsToDeployment : List (String × ownerKey))
    (podMetricsMap : List (String × PodUsage)) (metricsAvail includeSystem : Bool)
    (pods : List Pod) : List (String × WorkloadInfo) :=
  pods.foldl (workloadStep rsToDeployment podMetricsMap metricsAvail includeSystem) []

/-- FetchWorkloadsResult holds the result of FetchWorkloads. -/
structure FetchWorkloadsResult where
  Workloads : List WorkloadInfo
  MetricsAvailable : Bool
deriving DecidableEq

/-- FetchWorkloads, modelled as a function of the three listing outcomes.
Pods and replica sets are fatal listings; pod metrics only drive the
availability flag. Go iterates the final map in unspecified order; the model
returns the workloads in first-insertion order, one of the orders Go can
produce, with exactly the same multiset of entries. -/
def FetchWorkloads (podsRes : Except String (List Pod))
    (podMetricsRes : Except String (List PodUsage))
    (replicaSetsRes : Except String (List ReplicaSetSpec))
    (includeSystem : Bool) : Except String FetchWorkloadsResult :=
  match podsRes with
  | .error e => .error ("failed to list pods: " ++ e)
  | .ok pods =>
    match replicaSetsRes with
    | .error e => .error ("failed to list replicasets: " ++ e)
    | .ok replicaSets =>
      let metricsAvail := listingOk podMetricsRes
      let rsToDeployment := rsToDeploymentEntries replicaSets
      let podMetricsMap := podMetricsEntries (podMetricsRes.toOption.getD [])
      .ok { Workloads :=
              (fetchWorkloadsAggregate rsToDeployment podMetricsMap metricsAvail
                includeSystem pods).map (fun e => e.2),
            MetricsAvailable := metricsAvail }

/-- workloadSortFactor returns the key for sorting workloads by CPU
over-request severity; higher is worse (output/table.go). -/
def workloadSortFactor (w : WorkloadInfo) : ℚ :=
  if w.CPURequest = 0 then -1
  else if !w.MetricsAvailable then -(1 / 2)
  else if w.CPUActual = 0 then 10 ^ 15
  else (w.CPURequest : ℚ) / (w.CPUActual : ℚ)

/-- The verdict- and factor-bearing cells of one deployments-table row
(the RenderDeployments loop body); pure formatting cells are
presentation-only and not modelled. -/
structure WorkloadRowCells where
  factor : String
  cpuVerdict : CellValue
  memVerdict : CellValue
deriving DecidableEq

/-- The claim-relevant cells RenderDeployments computes for one workload. -/
def deploymentsRowCells (resultMetricsAvailable : Bool) (w : WorkloadInfo) : WorkloadRowCells :=
  let metricsAvail := resultMetricsAvailable && w.MetricsAvailable
  { factor := FormatFactor w.CPURequest w.CPUActual,
    cpuVerdict := verdictFromRatio (w.CPURequest : ℚ) (w.CPUActual : ℚ) metricsAvail,
    memVerdict := verdictFromRatio w.MemRequest w.MemActual metricsAvail }

/-- The sort performed by RenderDeployments: workloadSortFactor descending
(worst first); mergeSort realizes a sort consistent with the sort.Slice
comparator. -/
def sortWorkloads (ws : List WorkloadInfo) : List WorkloadInfo :=
  ws.mergeSort (fun a b => decide (workloadSortFactor a ≥ workloadSortFactor b))

/-- The sort performed by RenderPods and renderNodesPodOverview: raw CPU
request descending. -/
def sortPodsByCPURequest (pods : List PodInfo) : List PodInfo :=
  pods.mergeSort (fun a b => decide (a.CPURequest ≥ b.CPURequest))

/-- The per-node pod list displayed by renderNodesPodOverview: filtered by
the system-namespace deny-list unless includeSystem, then sorted by CPU
request descending. -/
def overviewPodsForNode (includeSystem : Bool) (node : NodeInfo) : List PodInfo :=
  let pods :=
    if includeSystem then node.Pods
    else node.Pods.filter (fun p => !SystemNamespaces p.Namespace)
  sortPodsByCPURequest pods

/-- The percentage and verdict content of one nodes-table row (the
renderNodesMain loop body); string formatting of percentages is
presentation-only. -/
structure NodeRowData where
  cpuActualPct : ℚ
  cpuReqPct : ℚ
  memActualPct : ℚ
  memReqPct : ℚ
  cpuVerdict : CellValue
  memVerdict : CellValue
deriving DecidableEq

/-- The claim-relevant content renderNodesMain computes for one node. -/
def nodesMainRow (nodeMetricsAvailable : Bool) (node : NodeInfo) : NodeRowData :=
  let cpuActualPct := safePctInt node.ActualCPU node.AllocatableCPU
  let cpuReqPct := safePctInt node.RequestedCPU node.AllocatableCPU
  let memActualPct := safePctFloat node.ActualMem node.AllocatableMem
  let memReqPct := safePctFloat node.RequestedMem node.AllocatableMem
  if nodeMetricsAvailable && node.MetricsAvailable then
    { cpuActualPct := cpuActualPct, cpuReqPct := cpuReqPct,
      memActualPct := memActualPct, memReqPct := memReqPct,
      cpuVerdict := ⟨verdictLabel (ResourceVerdict cpuReqPct cpuActualPct)⟩,
      memVerdict := ⟨verdictLabel (ResourceVerdict memReqPct memActualPct)⟩ }
  else
    { cpuActualPct := cpuActualPct, cpuReqPct := cpuReqPct,
      memActualPct := memActualPct, memReqPct := memReqPct,
      cpuVerdict := naCell, memVerdict := naCell }

/-- A concrete node with zero allocatable capacity but live metrics, used to
evaluate the rendering at an explicit input. -/
def nodeZeroAlloc : NodeInfo :=
  { Name := "n0", AllocatableCPU := 0, AllocatableMem := 0,
    ActualCPU := 120, ActualMem := 256, MetricsAvailable := true,
    RequestedCPU := 500, RequestedMem := 1024, Pods := [] }

/-- A pod with only an unrecognized owner reference, used to evaluate
ownership resolution at explicit inputs. -/
def podPlain : Pod :=
  { Namespace := "ns", Name := "standalone", NodeName := "n1",
    Phase := PodPhase.running, OwnerReferences := [{ Kind := "Node", Name := "n1" }],
    Containers := [] }

/-- A pod owned by ReplicaSet rs1. -/
def podRS : Pod :=
  { Namespace := "ns", Name := "web-abc", NodeName := "n1",
    Phase := PodPhase.running,
    OwnerReferences := [{ Kind := "ReplicaSet", Name := "rs1" }],
    Containers := [] }

/-- An index mapping rs1 to its owning Deployment dep1. -/
def mapRS : List (String × ownerKey) :=
  [("ns/rs1", { Kind := "Deployment", Namespace := "ns", Name := "dep1" })]

/-- A pod owned by a StatefulSet. -/
def podSS : Pod :=
  { Namespace := "ns", Name := "db-0", NodeName := "n1",
    Phase := PodPhase.running,
    OwnerReferences := [{ Kind := "StatefulSet", Name := "db" }],
    Containers := [] }

/-- A running standalone pod in a user namespace with a CPU and memory
request, used to evaluate the workload aggregation at an explicit input. -/
def podC2 : Pod :=
  { Namespace := "default", Name := "pc", NodeName := "n1",
    Phase := PodPhase.running, OwnerReferences := [],
    Containers := [{ cpuReq := 100, cpuLim := 0, memReq := 64, memLim := 0 }] }

/-- The workload map entry the aggregation produces for podC2 when pod
metrics are unavailable. -/
def entryC2 : String × WorkloadInfo :=
  ("default/Pod/pc",
   { Kind := "Pod", Namespace := "default", Name := "pc", PodCount := 1,
     CPURequest := 100, CPUActual := 0, MemRequest := 64, MemActual := 0,
     MetricsAvailable := false })

/-- A workload with an astronomically large request/actual ratio. -/
def wRatioHuge : WorkloadInfo :=
  { Kind := "Deployment", Namespace := "ns", Name := "huge", PodCount := 1,
    CPURequest := 10 ^ 16, CPUActual := 1, MemRequest := 0, MemActual := 0,
    MetricsAvailable := true }

/-- A workload with a positive request and zero observed usage. -/
def wZeroActual : WorkloadInfo :=
  { Kind := "Deployment", Namespace := "ns", Name := "idle", PodCount := 1,
    CPURequest := 5, CPUActual := 0, MemRequest := 0, MemActual := 0,
    MetricsAvailable := true }

/-- A workload with no CPU request. -/
def wNoReq : WorkloadInfo :=
  { Kind := "Deployment", Namespace := "ns", Name := "noreq", PodCount := 1,
    CPURequest := 0, CPUActual := 50, MemRequest := 0, MemActual := 0,
    MetricsAvailable := true }

/-- A workload whose metrics source was unreachable. -/
def wUnavail : WorkloadInfo :=
  { Kind := "Deployment", Namespace := "ns", Name := "dark", PodCount := 1,
    CPURequest := 200, CPUActual := 0, MemRequest := 0, MemActual := 0,
    MetricsAvailable := false }

/-- A workload with an ordinary request/actual ratio. -/
def wRatioSmall : WorkloadInfo :=
  { Kind := "Deployment", Namespace := "ns", Name := "busy", PodCount := 1,
    CPURequest := 400, CPUActual := 100, MemRequest := 0, MemActual := 0,
    MetricsAvailable := true }

/-! ### Theorems -/

/-- C1: ResourceVerdict classifies by diff = requestedPct - actualPct:
diff > 50 gives MassivelyOverRequested; 20 < diff ≤ 50 gives OverRequested;
diff ≤ 20 with actual above requested gives Bursting; otherwise OK. The
boundaries fall to the lower branch (diff = 50 is OverRequested, diff = 20 is
OK) and equal percentages always give OK. -/
theorem resourceVerdict_classification (requestedPct actualPct : ℚ) :
    (requestedPct - actualPct > 50 →
      ResourceVerdict requestedPct actualPct = Verdict.massivelyOverRequested)
    ∧ (20 < requestedPct - actualPct → requestedPct - actualPct ≤ 50 →
      ResourceVerdict requestedPct actualPct = Verdict.overRequested)
    ∧ (requestedPct - actualPct ≤ 20 → actualPct > requestedPct →
      ResourceVerdict requestedPct actualPct = Verdict.bursting)
    ∧ (requestedPct - actualPct ≤ 20 → actualPct ≤ requestedPct →
      ResourceVerdict requestedPct actualPct = Verdict.ok)
    ∧ (requestedPct - actualPct = 50 →
      ResourceVerdict requestedPct actualPct = Verdict.overRequested)
    ∧ (requestedPct - actualPct = 20 →
      ResourceVerdict requestedPct actualPct = Verdict.ok)
    ∧ ResourceVerdict requestedPct requestedPct = Verdict.ok := by
  refine ⟨?_, ?_, ?_, ?_, ?_, ?_, ?_⟩ <;>
    intros <;> simp only [ResourceVerdict] <;> split_ifs <;> first | rfl | linarith

/-- Witness for C1: concrete inputs exercising every branch, matching the
spec's boundary table. -/
theorem resourceVerdict_classification_witness :
    ResourceVerdict 80 20 = Verdict.massivelyOverRequested
    ∧ ResourceVerdict 41 20 = Verdict.overRequested
    ∧ ResourceVerdict 70 20 = Verdict.overRequested
    ∧ ResourceVerdict 20 35 = Verdict.bursting
    ∧ ResourceVerdict 40 20 = Verdict.ok :=
  ⟨(resourceVerdict_classification 80 20).1 (by norm_num),
   (resourceVerdict_classification 41 20).2.1 (by norm_num) (by norm_num),
   (resourceVerdict_classification 70 20).2.2.2.2.1 (by norm_num),
   (resourceVerdict_classification 20 35).2.2.1 (by norm_num) (by norm_num),
   (resourceVerdict_classification 40 20).2.2.2.2.2.1 (by norm_num)⟩

/-- C5: meetsFactorFilter passes everything at threshold 0; at a nonzero
threshold it rejects a zero request or unavailable metrics; at a positive
threshold it passes exactly when actual = 0 or the integer quotient
req/actual reaches the threshold; at any negative threshold it passes exactly
when actual strictly exceeds req. -/
theorem meetsFactorFilter_spec (req actual : Int) (metricsAvail : Bool) (threshold : Int) :
    (threshold = 0 → meetsFactorFilter req actual metricsAvail threshold = true)
    ∧ (threshold ≠ 0 → req = 0 ∨ metricsAvail = false →
        meetsFactorFilter req actual metricsAvail threshold = false)
    ∧ (threshold > 0 → req ≠ 0 → metricsAvail = true →
        (meetsFactorFilter req actual metricsAvail threshold = true ↔
          actual = 0 ∨ Int.tdiv req actual ≥ threshold))
    ∧ (threshold < 0 → req ≠ 0 → metricsAvail = true →
        (meetsFactorFilter req actual metricsAvail threshold = true ↔ actual > req)) := by
  refine ⟨fun h0 => by simp [meetsFactorFilter, h0], ?_, ?_, ?_⟩
  · rintro ht (h | h) <;> simp [meetsFactorFilter, ht, h]
  · intro ht hreq hm
    rcases eq_or_ne actual 0 with ha | ha <;>
      simp [meetsFactorFilter, ht.ne', hreq, hm, Int.not_lt.mpr ht.le, ha]
  · intro ht hreq hm
    simp [meetsFactorFilter, ht.ne, hreq, hm, ht]

/-- Witness for C5: concrete inputs exercising each branch of the filter. -/
theorem meetsFactorFilter_spec_witness :
    meetsFactorFilter 1000 100 true 10 = true
    ∧ meetsFactorFilter 0 100 true 5 = false
    ∧ meetsFactorFilter 500 0 true 3 = true
    ∧ meetsFactorFilter 300 500 true (-1) = true
    ∧ meetsFactorFilter 0 0 false 0 = true :=
  ⟨((meetsFactorFilter_spec 1000 100 true 10).2.2.1 (by norm_num) (by norm_num) rfl).mpr
      (Or.inr (by decide)),
   (meetsFactorFilter_spec 0 100 true 5).2.1 (by norm_num) (Or.inl rfl),
   ((meetsFactorFilter_spec 500 0 true 3).2.2.1 (by norm_num) (by norm_num) rfl).mpr
      (Or.inl rfl),
   ((meetsFactorFilter_spec 300 500 true (-1)).2.2.2 (by norm_num) (by norm_num) rfl).mpr
      (by norm_num),
   (meetsFactorFilter_spec 0 0 false 0).1 rfl⟩

/-- C6: FormatFactor renders "no req" on a zero request, "N/A" on a positive
request with zero actual, and otherwise the toward-zero integer quotient
req/actual followed by "x"; in particular (100,10) gives "10x" and (50,100)
gives "0x". -/
theorem formatFactor_spec :
    (∀ actual : Int, FormatFactor 0 actual = "no req")
    ∧ (∀ req : Int, req > 0 → FormatFactor req 0 = "N/A")
    ∧ (∀ req actual : Int, req ≠ 0 → actual ≠ 0 →
        FormatFactor req actual = toString (Int.tdiv req actual) ++ "x")
    ∧ FormatFactor 100 10 = "10x"
    ∧ FormatFactor 50 100 = "0x" := by
  refine ⟨fun actual => by simp [FormatFactor], ?_, ?_, by decide, by decide⟩
  · intro req hreq
    simp [FormatFactor, hreq.ne']
  · intro req actual hreq hactual
    simp [FormatFactor, hreq, hactual]

/-- Witness for C6: concrete inputs for the two guarded branches. -/
theorem formatFactor_spec_witness :
    FormatFactor 5 0 = "N/A" ∧ FormatFactor 7 2 = "3x" :=
  ⟨formatFactor_spec.2.1 5 (by norm_num),
   by rw [formatFactor_spec.2.2.1 7 2 (by norm_num) (by norm_num)]; decide⟩

/-- C10: the percentage helpers return 0 on a zero total instead of dividing
by zero, so a node row with zero allocatable CPU or memory renders 0%
requested and 0% actual on that axis, and verdict OK there when metrics are
available. -/
theorem safePct_zero_total_spec :
    (∀ value : Int, safePctInt value 0 = 0)
    ∧ (∀ value : ℚ, safePctFloat value 0 = 0)
    ∧ (∀ (avail : Bool) (node : NodeInfo), node.AllocatableCPU = 0 →
        (nodesMainRow avail node).cpuReqPct = 0
        ∧ (nodesMainRow avail node).cpuActualPct = 0
        ∧ ((avail && node.MetricsAvailable) = true →
            (nodesMainRow avail node).cpuVerdict = ⟨verdictLabel Verdict.ok⟩))
    ∧ (∀ (avail : Bool) (node : NodeInfo), node.AllocatableMem = 0 →
        (nodesMainRow avail node).memReqPct = 0
        ∧ (nodesMainRow avail node).memActualPct = 0
        ∧ ((avail && node.MetricsAvailable) = true →
            (nodesMainRow avail node).memVerdict = ⟨verdictLabel Verdict.ok⟩)) := by
  have hok : ResourceVerdict 0 0 = Verdict.ok := by norm_num [ResourceVerdict]
  refine ⟨fun value => by simp [safePctInt],
          fun value => by simp [safePctFloat], ?_, ?_⟩
  · intro avail node h
    refine ⟨by simp [nodesMainRow, safePctInt, h]; split_ifs <;> rfl,
            by simp [nodesMainRow, safePctInt, h]; split_ifs <;> rfl, ?_⟩
    intro hm
    simp [nodesMainRow, safePctInt, h, hm, hok]
  · intro avail node h
    refine ⟨by simp [nodesMainRow, safePctFloat, h]; split_ifs <;> rfl,
            by simp [nodesMainRow, safePctFloat, h]; split_ifs <;> rfl, ?_⟩
    intro hm
    simp [nodesMainRow, safePctFloat, h, hm, hok]

/-- Witness for C10: the zero-capacity node renders 0% and OK on both axes. -/
theorem safePct_zero_total_spec_witness :
    (nodesMainRow true nodeZeroAlloc).cpuReqPct = 0
    ∧ (nodesMainRow true nodeZeroAlloc).cpuVerdict = ⟨verdictLabel Verdict.ok⟩
    ∧ (nodesMainRow true nodeZeroAlloc).memVerdict = ⟨verdictLabel Verdict.ok⟩ :=
  ⟨(safePct_zero_total_spec.2.2.1 true nodeZeroAlloc rfl).1,
   (safePct_zero_total_spec.2.2.1 true nodeZeroAlloc rfl).2.2 rfl,
   (safePct_zero_total_spec.2.2.2 true nodeZeroAlloc rfl).2.2 rfl⟩

/-- Scanning skips any prefix of unrecognized owner references. -/
theorem resolveOwnerRefs_skip_unrecognized (ns podName : String)
    (m : List (String × ownerKey)) (pre l : List OwnerRef)
    (hpre : ∀ x ∈ pre, recognizedOwnerKind x = false) :
    resolveOwnerRefs ns podName m (pre ++ l) = resolveOwnerRefs ns podName m l := by
  induction pre with
  | nil => rfl
  | cons r rest ih =>
    have hr := hpre r (by simp)
    have hrest : ∀ x ∈ rest, recognizedOwnerKind x = false :=
      fun x hx => hpre x (by simp [hx])
    simp only [recognizedOwnerKind, Bool.or_eq_false_iff] at hr
    obtain ⟨⟨⟨h1, h2⟩, h3⟩, h4⟩ := hr
    simp only [List.cons_append, resolveOwnerRefs, h1, h2, h3, h4]
    simp [ih hrest]

/-- C4: ownership resolution scans a pod's owner references in order. With no
recognized reference the pod is its own workload (kind Pod); the first
recognized reference decides the result: a ReplicaSet reference resolves
through the pre-built namespace/replicaset-name index to its Deployment when
mapped and to the ReplicaSet itself otherwise, while a
StatefulSet/DaemonSet/Job reference resolves directly to that kind and name;
all references after the first recognized one are ignored. -/
theorem resolveWorkloadOwner_spec (pod : Pod) (m : List (String × ownerKey)) :
    ((∀ x ∈ pod.OwnerReferences, recognizedOwnerKind x = false) →
      resolveWorkloadOwner pod m =
        { Kind := "Pod", Namespace := pod.Namespace, Name := pod.Name })
    ∧ (∀ pre r rest, pod.OwnerReferences = pre ++ r :: rest →
        (∀ x ∈ pre, recognizedOwnerKind x = false) →
        ((r.Kind = "ReplicaSet" →
           (∀ dep, lookupLast m (pod.Namespace ++ "/" ++ r.Name) = some dep →
              resolveWorkloadOwner pod m = dep)
           ∧ (lookupLast m (pod.Namespace ++ "/" ++ r.Name) = none →
              resolveWorkloadOwner pod m =
                { Kind := "ReplicaSet", Namespace := pod.Namespace, Name := r.Name }))
         ∧ ((r.Kind = "StatefulSet" ∨ r.Kind = "DaemonSet" ∨ r.Kind = "Job") →
              resolveWorkloadOwner pod m =
                { Kind := r.Kind, Namespace := pod.Namespace, Name := r.Name })
         ∧ (recognizedOwnerKind r = true → ∀ rest',
              resolveOwnerRefs pod.Namespace pod.Name m (pre ++ r :: rest') =
                resolveWorkloadOwner pod m))) := by
  constructor
  · intro h
    have := resolveOwnerRefs_skip_unrecognized pod.Namespace pod.Name m
      pod.OwnerReferences [] h
    simpa [resolveWorkloadOwner, resolveOwnerRefs] using this
  · intro pre r rest heq hpre
    have hmain : resolveWorkloadOwner pod m = resolveOwnerRefs pod.Namespace pod.Name m
        (r :: rest) := by
      rw [resolveWorkloadOwner, heq, resolveOwnerRefs_skip_unrecognized _ _ _ _ _ hpre]
    refine ⟨?_, ?_, ?_⟩
    · intro hk
      have hk' : (r.Kind == "ReplicaSet") = true := by simp [hk]
      constructor
      · intro dep hdep
        rw [hmain]
        simp only [resolveOwnerRefs, hk', if_true, hdep]
      · intro hnone
        rw [hmain]
        simp only [resolveOwnerRefs, hk', if_true, hnone]
    · intro hk
      rw [hmain]
      rcases hk with hk | hk | hk <;>
        simp [resolveOwnerRefs, hk]
    · intro hrec rest'
      rw [resolveOwnerRefs_skip_unrecognized _ _ _ _ _ hpre, hmain]
      simp only [recognizedOwnerKind, Bool.or_eq_true, beq_iff_eq] at hrec
      rcases hrec with ((h | h) | h) | h <;> simp [resolveOwnerRefs, h]

/-- Witness for C4: a standalone pod, a ReplicaSet pod with and without a
Deployment owner in the index, and a StatefulSet pod. -/
theorem resolveWorkloadOwner_spec_witness :
    resolveWorkloadOwner podPlain mapRS =
      { Kind := "Pod", Namespace := "ns", Name := "standalone" }
    ∧ resolveWorkloadOwner podRS mapRS =
      { Kind := "Deployment", Namespace := "ns", Name := "dep1" }
    ∧ resolveWorkloadOwner podRS [] =
      { Kind := "ReplicaSet", Namespace := "ns", Name := "rs1" }
    ∧ resolveWorkloadOwner podSS mapRS =
      { Kind := "StatefulSet", Namespace := "ns", Name := "db" } :=
  ⟨(resolveWorkloadOwner_spec podPlain mapRS).1 (by decide),
   ((resolveWorkloadOwner_spec podRS mapRS).2 [] { Kind := "ReplicaSet", Name := "rs1" } []
      rfl (by decide)).1 rfl
     |>.1 { Kind := "Deployment", Namespace := "ns", Name := "dep1" } (by decide),
   ((resolveWorkloadOwner_spec podRS []).2 [] { Kind := "ReplicaSet", Name := "rs1" } []
      rfl (by decide)).1 rfl
     |>.2 (by decide),
   ((resolveWorkloadOwner_spec podSS mapRS).2 [] { Kind := "StatefulSet", Name := "db" } []
      rfl (by decide)).2.1 (Or.inl rfl)⟩

/-- Restricting the pod list to running pods does not change the per-node
grouping, which already keeps only running pods. -/
theorem podsByNode_filter_running (pods : List Pod) (nodeName : String) :
    podsByNode (pods.filter (fun p => decide (p.Phase = PodPhase.running))) nodeName
      = podsByNode pods nodeName := by
  unfold podsByNode
  rw [List.filter_filter]
  apply List.filter_congr
  intro a _
  by_cases h : a.Phase = PodPhase.running <;> simp [h]

/-- A fold whose step ignores non-running pods is unchanged by restricting
the list to running pods. -/
theorem foldl_skip_nonrunning {β : Type _} (f : β → Pod → β)
    (hf : ∀ acc p, p.Phase ≠ PodPhase.running → f acc p = acc)
    (pods : List Pod) (acc : β) :
    (pods.filter (fun p => decide (p.Phase = PodPhase.running))).foldl f acc
      = pods.foldl f acc := by
  induction pods generalizing acc with
  | nil => rfl
  | cons p rest ih =>
    by_cases h : p.Phase = PodPhase.running
    · simp [List.filter_cons, h, ih]
    · simp [List.filter_cons, h, ih, hf acc p h]

/-- C8: pods whose phase is not Running are excluded from every aggregation
level: each of the three fetch aggregations computes the same result on the
full pod list as on the list restricted to running pods, so a non-running pod
contributes to no node total or per-node breakdown, no pods-report entry, and
no workload group. -/
theorem nonrunning_pods_excluded (pods : List Pod) :
    (∀ (nm : List (String × UsageRes)) (pm : List (String × PodUsage)) (wpm : Bool)
        (node : NodeSpec),
      buildNodeInfo nm pm wpm (pods.filter (fun p => decide (p.Phase = PodPhase.running))) node
        = buildNodeInfo nm pm wpm pods node)
    ∧ (∀ pm : List (String × PodUsage),
        fetchPodsAggregate pm (pods.filter (fun p => decide (p.Phase = PodPhase.running)))
          = fetchPodsAggregate pm pods)
    ∧ (∀ (rsm : List (String × ownerKey)) (pm : List (String × PodUsage))
          (metricsAvail includeSystem : Bool),
        fetchWorkloadsAggregate rsm pm metricsAvail includeSystem
            (pods.filter (fun p => decide (p.Phase = PodPhase.running)))
          = fetchWorkloadsAggregate rsm pm metricsAvail includeSystem pods) := by
  refine ⟨?_, ?_, ?_⟩
  · intro nm pm wpm node
    simp only [buildNodeInfo, podsByNode_filter_running]
  · intro pm
    exact foldl_skip_nonrunning (podsReportStep pm)
      (fun acc p hp => by simp [podsReportStep, hp]) pods []
  · intro rsm pm metricsAvail includeSystem
    exact foldl_skip_nonrunning (workloadStep rsm pm metricsAvail includeSystem)
      (fun acc p hp => by simp [workloadStep, hp]) pods []

/-- Attaching pod metrics changes only the actual-usage fields and the
availability flag, never the requested totals. -/
theorem attachPodMetrics_requests (pm : List (String × PodUsage)) (pod : Pod)
    (pi : PodInfo) :
    (attachPodMetrics pm pod pi).CPURequest = pi.CPURequest
    ∧ (attachPodMetrics pm pod pi).MemRequest = pi.MemRequest := by
  have key : ∀ (l : List UsageRes) (q : PodInfo),
      ((l.foldl (fun pi c =>
          { pi with CPUActual := pi.CPUActual + c.cpu, MemActual := pi.MemActual + c.mem })
        q).CPURequest = q.CPURequest)
      ∧ ((l.foldl (fun pi c =>
          { pi with CPUActual := pi.CPUActual + c.cpu, MemActual := pi.MemActual + c.mem })
        q).MemRequest = q.MemRequest) := by
    intro l
    induction l with
    | nil => exact fun q => ⟨rfl, rfl⟩
    | cons c rest ih => exact fun q => ih _
  unfold attachPodMetrics
  cases lookupLast pm (pod.Namespace ++ "/" ++ pod.Name) with
  | none => exact ⟨rfl, rfl⟩
  | some p => exact key p.Containers _

/-- One step of the node accumulation adds exactly the pod's requests. -/
theorem nodePodStep_requested (pm : List (String × PodUsage)) (wpm : Bool)
    (ni : NodeInfo) (pod : Pod) :
    (nodePodStep pm wpm ni pod).RequestedCPU
      = ni.RequestedCPU + (podInfoFromPod pod).CPURequest
    ∧ (nodePodStep pm wpm ni pod).RequestedMem
      = ni.RequestedMem + (podInfoFromPod pod).MemRequest := by
  unfold nodePodStep
  cases wpm with
  | false => exact ⟨rfl, rfl⟩
  | true =>
    simp only [if_true]
    exact ⟨by rw [(attachPodMetrics_requests pm pod _).1],
           by rw [(attachPodMetrics_requests pm pod _).2]⟩

/-- Folding the node accumulation over a pod list adds the sum of the pods'
requests to the accumulator. -/
theorem foldl_nodePodStep_requested (pm : List (String × PodUsage)) (wpm : Bool)
    (l : List Pod) (ni : NodeInfo) :
    ((l.foldl (nodePodStep pm wpm) ni).RequestedCPU
      = ni.RequestedCPU + (l.map (fun p => (podInfoFromPod p).CPURequest)).sum)
    ∧ ((l.foldl (nodePodStep pm wpm) ni).RequestedMem
      = ni.RequestedMem + (l.map (fun p => (podInfoFromPod p).MemRequest)).sum) := by
  induction l generalizing ni with
  | nil => simp
  | cons p rest ih =>
    simp only [List.foldl_cons, List.map_cons, List.sum_cons]
    obtain ⟨ihc, ihm⟩ := ih (nodePodStep pm wpm ni p)
    rw [ihc, ihm, (nodePodStep_requested pm wpm ni p).1, (nodePodStep_requested pm wpm ni p).2]
    constructor <;> abel

/-- A mapped sum over a list splits into the parts selected and rejected by
any Boolean predicate. -/
theorem sum_map_filter_split {α M : Type _} [AddCommMonoid M] (l : List α) (q : α → Bool)
    (f : α → M) :
    (l.map f).sum
      = ((l.filter q).map f).sum + ((l.filter (fun a => !q a)).map f).sum := by
  induction l with
  | nil => simp
  | cons a rest ih =>
    by_cases h : q a <;> simp [h, ih] <;> abel

/-- C7: a node's requested CPU/memory totals are the sums over every running
pod scheduled on it — the per-pod breakdown and the namespace deny-list play
no part, and the sum splits into the system-namespace and non-system parts,
showing system pods are included; only the pod-overview breakdown list is
narrowed by the namespace filter (and it is exactly the filtered pod list,
reordered). -/
theorem node_totals_include_every_running_pod (nm : List (String × UsageRes))
    (pm : List (String × PodUsage)) (wpm : Bool) (pods : List Pod) (node : NodeSpec) :
    ((buildNodeInfo nm pm wpm pods node).RequestedCPU
        = ((podsByNode pods node.Name).map (fun p => (podInfoFromPod p).CPURequest)).sum
      ∧ (buildNodeInfo nm pm wpm pods node).RequestedMem
        = ((podsByNode pods node.Name).map (fun p => (podInfoFromPod p).MemRequest)).sum)
    ∧ ((podsByNode pods node.Name).map (fun p => (podInfoFromPod p).CPURequest)).sum
        = (((podsByNode pods node.Name).filter (fun p => SystemNamespaces p.Namespace)).map
            (fun p => (podInfoFromPod p).CPURequest)).sum
          + (((podsByNode pods node.Name).filter (fun p => !SystemNamespaces p.Namespace)).map
            (fun p => (podInfoFromPod p).CPURequest)).sum
    ∧ (∀ ni : NodeInfo,
        List.Perm (overviewPodsForNode false ni)
          (ni.Pods.filter (fun p => !SystemNamespaces p.Namespace))
        ∧ List.Perm (overviewPodsForNode true ni) ni.Pods) := by
  refine ⟨?_, sum_map_filter_split _ _ _, fun ni => ?_⟩
  · unfold buildNodeInfo
    cases lookupLast nm node.Name with
    | none =>
      have h := foldl_nodePodStep_requested pm wpm (podsByNode pods node.Name)
        { Name := node.Name, AllocatableCPU := node.AllocatableCPU,
          AllocatableMem := node.AllocatableMem,
          ActualCPU := 0, ActualMem := 0, MetricsAvailable := false,
          RequestedCPU := 0, RequestedMem := 0, Pods := [] }
      simpa using h
    | some m =>
      have h := foldl_nodePodStep_requested pm wpm (podsByNode pods node.Name)
        { Name := node.Name, AllocatableCPU := node.AllocatableCPU,
          AllocatableMem := node.AllocatableMem,
          ActualCPU := m.cpu, ActualMem := m.mem, MetricsAvailable := true,
          RequestedCPU := 0, RequestedMem := 0, Pods := [] }
      simpa using h
  · exact ⟨List.mergeSort_perm _ _, List.mergeSort_perm _ _⟩

/-- C3: every fetch fails as a whole exactly when a core listing fails, and
only degrades on a metrics failure: if nodes/pods (FetchNodes), pods
(FetchPods), or pods/replica-sets (FetchWorkloads) fail the fetch returns an
error and no result; if only a metrics listing fails the fetch returns a
complete result whose corresponding availability flag is false. -/
theorem fetch_failure_discipline :
    (∀ (nodesRes : Except String (List NodeSpec)) (podsRes : Except String (List Pod))
        (nmRes : Except String (List NodeUsage)) (pmRes : Except String (List PodUsage))
        (wpm : Bool),
      (listingOk nodesRes = false ∨ listingOk podsRes = false →
        listingOk (FetchNodes nodesRes podsRes nmRes pmRes wpm) = false)
      ∧ (∀ nodes pods, nodesRes = .ok nodes → podsRes = .ok pods →
          ∃ r, FetchNodes nodesRes podsRes nmRes pmRes wpm = .ok r
            ∧ r.NodeMetricsAvailable = listingOk nmRes
            ∧ r.PodMetricsAvailable = (wpm && listingOk pmRes)
            ∧ r.Nodes.length = nodes.length))
    ∧ (∀ (podsRes : Except String (List Pod)) (pmRes : Except String (List PodUsage)),
      (listingOk podsRes = false → listingOk (FetchPods podsRes pmRes) = false)
      ∧ (∀ pods, podsRes = .ok pods →
          ∃ r, FetchPods podsRes pmRes = .ok r ∧ r.MetricsAvailable = listingOk pmRes))
    ∧ (∀ (podsRes : Except String (List Pod)) (pmRes : Except String (List PodUsage))
        (rsRes : Except String (List ReplicaSetSpec)) (includeSystem : Bool),
      (listingOk podsRes = false ∨ listingOk rsRes = false →
        listingOk (FetchWorkloads podsRes pmRes rsRes includeSystem) = false)
      ∧ (∀ pods rss, podsRes = .ok pods → rsRes = .ok rss →
          ∃ r, FetchWorkloads podsRes pmRes rsRes includeSystem = .ok r
            ∧ r.MetricsAvailable = listingOk pmRes)) := by
  refine ⟨?_, ?_, ?_⟩
  · intro nodesRes podsRes nmRes pmRes wpm
    constructor
    · rintro (h | h) <;> cases nodesRes <;> cases podsRes <;>
        simp_all [FetchNodes, listingOk]
    · rintro nodes pods rfl rfl
      exact ⟨_, rfl, rfl, rfl, by simp [List.length_map]⟩
  · intro podsRes pmRes
    constructor
    · intro h
      cases podsRes <;> simp_all [FetchPods, listingOk]
    · rintro pods rfl
      exact ⟨_, rfl, rfl⟩
  · intro podsRes pmRes rsRes includeSystem
    constructor
    · rintro (h | h) <;> cases podsRes <;> cases rsRes <;>
        simp_all [FetchWorkloads, listingOk]
    · rintro pods rss rfl rfl
      exact ⟨_, rfl, rfl⟩

/-- Witness for C3: a failed core listing aborts each fetch; a failed metrics
listing only clears the flag of an otherwise complete result. -/
theorem fetch_failure_discipline_witness :
    listingOk (FetchNodes (.error "boom") (.ok []) (.ok []) (.ok []) true) = false
    ∧ listingOk (FetchWorkloads (.ok []) (.ok []) (.error "boom") false) = false
    ∧ (∃ r, FetchPods (.ok [podPlain]) (.error "metrics down") = .ok r
        ∧ r.MetricsAvailable = false)
    ∧ (∃ r, FetchNodes (.ok [{ Name := "n1", AllocatableCPU := 1000, AllocatableMem := 1024 }])
          (.ok [podPlain]) (.error "metrics down") (.ok []) true = .ok r
        ∧ r.NodeMetricsAvailable = false ∧ r.Nodes.length = 1) :=
  ⟨(fetch_failure_discipline.1 (.error "boom") (.ok []) (.ok []) (.ok []) true).1
      (Or.inl rfl),
   (fetch_failure_discipline.2.2 (.ok []) (.ok []) (.error "boom") false).1 (Or.inr rfl),
   (fetch_failure_discipline.2.1 (.ok [podPlain]) (.error "metrics down")).2 [podPlain] rfl,
   by
    obtain ⟨r, hr, hnm, _, hlen⟩ :=
      (fetch_failure_discipline.1
        (.ok [{ Name := "n1", AllocatableCPU := 1000, AllocatableMem := 1024 }])
        (.ok [podPlain]) (.error "metrics down") (.ok []) true).2
        [{ Name := "n1", AllocatableCPU := 1000, AllocatableMem := 1024 }] [podPlain] rfl rfl
    exact ⟨r, hr, hnm, hlen⟩⟩

/-- updateValue preserves any property that its update function preserves. -/
theorem updateValue_invariant {P : WorkloadInfo → Prop} (k : String)
    (f : WorkloadInfo → WorkloadInfo) (hf : ∀ w, P w → P (f w)) :
    ∀ l : List (String × WorkloadInfo), (∀ e ∈ l, P e.2) →
      ∀ e ∈ updateValue k f l, P e.2 := by
  intro l
  induction l with
  | nil => simp [updateValue]
  | cons a rest ih =>
    intro h e he
    unfold updateValue at he
    by_cases hk : (a.1 == k) = true
    · rw [if_pos hk] at he
      rcases List.mem_cons.mp he with rfl | he'
      · exact hf a.2 (h a (List.mem_cons_self a rest))
      · exact h e (List.mem_cons_of_mem a he')
    · rw [if_neg hk] at he
      rcases List.mem_cons.mp he with rfl | he'
      · exact h e (List.mem_cons_self e rest)
      · exact ih (fun x hx => h x (List.mem_cons_of_mem a hx)) e he'

/-- Folding container requests into an entry leaves the actual-usage fields
and the availability flag unchanged. -/
theorem foldl_addContainerRequests_actuals (l : List ContainerRes) :
    ∀ w : WorkloadInfo,
      (l.foldl addContainerRequests w).CPUActual = w.CPUActual
      ∧ (l.foldl addContainerRequests w).MemActual = w.MemActual
      ∧ (l.foldl addContainerRequests w).MetricsAvailable = w.MetricsAvailable := by
  induction l with
  | nil => exact fun w => ⟨rfl, rfl, rfl⟩
  | cons c rest ih =>
    intro w
    have h := ih (addContainerRequests w c)
    have hc : (addContainerRequests w c).CPUActual = w.CPUActual
        ∧ (addContainerRequests w c).MemActual = w.MemActual
        ∧ (addContainerRequests w c).MetricsAvailable = w.MetricsAvailable := by
      unfold addContainerRequests
      split_ifs <;> exact ⟨rfl, rfl, rfl⟩
    simp only [List.foldl_cons]
    exact ⟨h.1.trans hc.1, h.2.1.trans hc.2.1, h.2.2.trans hc.2.2⟩

/-- With pod metrics unavailable, folding a pod in never touches the
actual-usage fields or the availability flag. -/
theorem addPodToWorkload_false_actuals (pm : List (String × PodUsage)) (pod : Pod)
    (w : WorkloadInfo) :
    (addPodToWorkload false pm pod w).CPUActual = w.CPUActual
    ∧ (addPodToWorkload false pm pod w).MemActual = w.MemActual
    ∧ (addPodToWorkload false pm pod w).MetricsAvailable = w.MetricsAvailable := by
  unfold addPodToWorkload
  simp only [Bool.false_eq_true, if_false]
  exact foldl_addContainerRequests_actuals pod.Containers _

/-- Every entry the aggregation produces with pod metrics unavailable has
zero actuals and a false availability flag. -/
theorem fetchWorkloadsAggregate_false_invariant (rsm : List (String × ownerKey))
    (pm : List (String × PodUsage)) (includeSystem : Bool) (pods : List Pod) :
    ∀ e ∈ fetchWorkloadsAggregate rsm pm false includeSystem pods,
      e.2.CPUActual = 0 ∧ e.2.MemActual = 0 ∧ e.2.MetricsAvailable = false := by
  have aux : ∀ (l : List Pod) (m : List (String × WorkloadInfo)),
      (∀ e ∈ m, e.2.CPUActual = 0 ∧ e.2.MemActual = 0 ∧ e.2.MetricsAvailable = false) →
      ∀ e ∈ l.foldl (workloadStep rsm pm false includeSystem) m,
        e.2.CPUActual = 0 ∧ e.2.MemActual = 0 ∧ e.2.MetricsAvailable = false := by
    intro l
    induction l with
    | nil => exact fun m hm => hm
    | cons p rest ih =>
      intro m hm
      simp only [List.foldl_cons]
      apply ih
      unfold workloadStep
      split_ifs with h1 h2
      · exact hm
      · exact hm
      · intro e he
        have hf : ∀ w : WorkloadInfo,
            w.CPUActual = 0 ∧ w.MemActual = 0 ∧ w.MetricsAvailable = false →
            (addPodToWorkload false pm p w).CPUActual = 0
              ∧ (addPodToWorkload false pm p w).MemActual = 0
              ∧ (addPodToWorkload false pm p w).MetricsAvailable = false := by
          intro w hw
          have h := addPodToWorkload_false_actuals pm p w
          exact ⟨h.1.trans hw.1, h.2.1.trans hw.2.1, h.2.2.trans hw.2.2⟩
        refine updateValue_invariant _ _ hf _ ?_ e he
        intro x hx
        split_ifs at hx with hck
        · exact hm x hx
        · rcases List.mem_append.mp hx with hx' | hx'
          · exact hm x hx'
          · rcases List.mem_singleton.mp hx' with rfl
            exact ⟨rfl, rfl, rfl⟩
  exact aux pods [] (by simp)

/-- C2: whenever the metrics-availability flag is false, the rendered verdict
and over-request factor are "no req"/"N/A" markers, never values computed
from actual usage: verdictFromRatio with a false flag only yields markers,
and every workload aggregated without pod metrics carries zero actuals and a
false flag, so its deployments row renders marker cells for the factor and
both verdicts. -/
theorem metrics_unavailable_renders_markers :
    (∀ req actual : ℚ, (verdictFromRatio req actual false).text = "no req"
        ∨ (verdictFromRatio req actual false).text = "N/A")
    ∧ (∀ (rsm : List (String × ownerKey)) (pm : List (String × PodUsage))
          (includeSystem : Bool) (pods : List Pod),
        ∀ e ∈ fetchWorkloadsAggregate rsm pm false includeSystem pods,
          e.2.CPUActual = 0 ∧ e.2.MemActual = 0 ∧ e.2.MetricsAvailable = false
          ∧ ((deploymentsRowCells false e.2).factor = "no req"
              ∨ (deploymentsRowCells false e.2).factor = "N/A")
          ∧ ((deploymentsRowCells false e.2).cpuVerdict.text = "no req"
              ∨ (deploymentsRowCells false e.2).cpuVerdict.text = "N/A")
          ∧ ((deploymentsRowCells false e.2).memVerdict.text = "no req"
              ∨ (deploymentsRowCells false e.2).memVerdict.text = "N/A")) := by
  have hv : ∀ req actual : ℚ, (verdictFromRatio req actual false).text = "no req"
      ∨ (verdictFromRatio req actual false).text = "N/A" := by
    intro req actual
    by_cases h : req = 0 <;> simp [verdictFromRatio, naCell, h]
  refine ⟨hv, ?_⟩
  intro rsm pm includeSystem pods e he
  obtain ⟨hc, hm, hflag⟩ := fetchWorkloadsAggregate_false_invariant rsm pm includeSystem pods e he
  refine ⟨hc, hm, hflag, ?_, ?_, ?_⟩
  · by_cases h : e.2.CPURequest = 0 <;>
      simp [deploymentsRowCells, FormatFactor, hc, h]
  · simpa [deploymentsRowCells] using hv (e.2.CPURequest : ℚ) (e.2.CPUActual : ℚ)
  · simpa [deploymentsRowCells] using hv e.2.MemRequest e.2.MemActual

/-- Witness for C2: the concrete aggregation of podC2 without metrics yields
entryC2, whose rendered cells are all markers. -/
theorem metrics_unavailable_renders_markers_witness :
    entryC2.2.CPUActual = 0
    ∧ ((deploymentsRowCells false entryC2.2).factor = "no req"
        ∨ (deploymentsRowCells false entryC2.2).factor = "N/A")
    ∧ ((deploymentsRowCells false entryC2.2).cpuVerdict.text = "no req"
        ∨ (deploymentsRowCells false entryC2.2).cpuVerdict.text = "N/A") :=
  have hagg : fetchWorkloadsAggregate [] [] false false [podC2] = [entryC2] := by
    simp only [fetchWorkloadsAggregate, workloadStep, List.foldl_cons, List.foldl_nil,
      resolveWorkloadOwner, resolveOwnerRefs, containsKey, updateValue, newWorkload,
      addPodToWorkload, addContainerRequests, lookupLast, podC2, entryC2, SystemNamespaces]
    norm_num
    rw [if_neg (by decide)]
    norm_num [Prod.ext_iff]
    decide
  have h := metrics_unavailable_renders_markers.2 [] [] false [podC2] entryC2
    (hagg ▸ List.mem_singleton.mpr rfl)
  ⟨h.1, h.2.2.2.1, h.2.2.2.2.1⟩

/-- C9 counterexample: a workload with request/actual ratio 10 ^ 16 receives
a larger sort key than a requesting-but-idle workload (zero actual usage),
whose sentinel key is only 10 ^ 15 — so zero actual usage does not sort to
the absolute top. -/
theorem workloadSortFactor_zero_actual_not_top :
    wZeroActual.CPURequest > 0 ∧ wZeroActual.CPUActual = 0
    ∧ wZeroActual.MetricsAvailable = true
    ∧ wRatioHuge.CPURequest > 0 ∧ wRatioHuge.CPUActual ≠ 0
    ∧ wRatioHuge.MetricsAvailable = true
    ∧ workloadSortFactor wRatioHuge > workloadSortFactor wZeroActual := by
  refine ⟨by norm_num [wZeroActual], rfl, rfl, by norm_num [wRatioHuge],
    by norm_num [wRatioHuge], rfl, ?_⟩
  norm_num [workloadSortFactor, wRatioHuge, wZeroActual]

/-- C9 (amended): the severity key gives no-request workloads -1 (lowest),
unavailable metrics -1/2 (just above no-request), a positive request with
zero actual usage the sentinel 10 ^ 15 — which sorts above every workload
whose request/actual ratio is below 10 ^ 15, though not above larger
ratios — and all remaining workloads their ratio request/actual; the
workload ranking orders by this key descending, while the pods listing is
ordered by raw CPU request descending, independent of the severity key. -/
theorem workloadSortFactor_spec (w w' : WorkloadInfo) :
    (w.CPURequest = 0 → workloadSortFactor w = -1)
    ∧ (w.CPURequest ≠ 0 → w.MetricsAvailable = false → workloadSortFactor w = -(1 / 2))
    ∧ (w.CPURequest ≠ 0 → w.MetricsAvailable = true → w.CPUActual = 0 →
        workloadSortFactor w = 10 ^ 15)
    ∧ (w.CPURequest ≠ 0 → w.MetricsAvailable = true → w.CPUActual ≠ 0 →
        workloadSortFactor w = (w.CPURequest : ℚ) / (w.CPUActual : ℚ))
    ∧ (w.CPURequest = 0 → w'.CPURequest > 0 → w'.CPUActual ≥ 0 →
        workloadSortFactor w < workloadSortFactor w')
    ∧ (w.CPURequest > 0 → w.MetricsAvailable = false →
        w'.CPURequest > 0 → w'.MetricsAvailable = true → w'.CPUActual ≥ 0 →
        workloadSortFactor w < workloadSortFactor w')
    ∧ (w.CPURequest ≠ 0 → w.MetricsAvailable = true → w.CPUActual = 0 →
        w'.CPURequest ≠ 0 → w'.MetricsAvailable = true → w'.CPUActual ≠ 0 →
        (w'.CPURequest : ℚ) / (w'.CPUActual : ℚ) < 10 ^ 15 →
        workloadSortFactor w' < workloadSortFactor w)
    ∧ (∀ ws : List WorkloadInfo,
        List.Perm (sortWorkloads ws) ws
        ∧ (sortWorkloads ws).Pairwise
            (fun a b => workloadSortFactor a ≥ workloadSortFactor b))
    ∧ (∀ ps : List PodInfo,
        List.Perm (sortPodsByCPURequest ps) ps
        ∧ (sortPodsByCPURequest ps).Pairwise (fun a b => a.CPURequest ≥ b.CPURequest)) := by
  refine ⟨fun h => by simp [workloadSortFactor, h],
    fun h1 h2 => by simp [workloadSortFactor, h1, h2],
    fun h1 h2 h3 => by simp [workloadSortFactor, h1, h2, h3],
    fun h1 h2 h3 => by simp [workloadSortFactor, h1, h2, h3],
    ?_, ?_, ?_, ?_, ?_⟩
  · intro h h1 h2
    have hw : workloadSortFactor w = -1 := by simp [workloadSortFactor, h]
    rw [hw]
    unfold workloadSortFactor
    split_ifs with e1 e2 e3
    · exact absurd e1 (by omega)
    · norm_num
    · norm_num
    · have hpos : (0 : ℚ) < (w'.CPURequest : ℚ) / (w'.CPUActual : ℚ) := by
        apply div_pos
        · exact_mod_cast h1
        · have : w'.CPUActual > 0 := lt_of_le_of_ne h2 (fun hh => e3 hh.symm)
          exact_mod_cast this
      linarith
  · intro h1 h2 h3 h4 h5
    have hne : w.CPURequest ≠ 0 := by omega
    have hw : workloadSortFactor w = -(1 / 2) := by
      simp [workloadSortFactor, hne, h2]
    rw [hw]
    unfold workloadSortFactor
    split_ifs with e1 e2 e3
    · exact absurd e1 (by omega)
    · simp [h4] at e2
    · norm_num
    · have hpos : (0 : ℚ) < (w'.CPURequest : ℚ) / (w'.CPUActual : ℚ) := by
        apply div_pos
        · exact_mod_cast h3
        · have : w'.CPUActual > 0 := lt_of_le_of_ne h5 (fun hh => e3 hh.symm)
          exact_mod_cast this
      linarith
  · intro h1 h2 h3 h4 h5 h6 h7
    have hw : workloadSortFactor w = 10 ^ 15 := by simp [workloadSortFactor, h1, h2, h3]
    have hw' : workloadSortFactor w' = (w'.CPURequest : ℚ) / (w'.CPUActual : ℚ) := by
      simp [workloadSortFactor, h4, h5, h6]
    rw [hw, hw']
    exact h7
  · intro ws
    have htrans : ∀ a b c : WorkloadInfo,
        decide (workloadSortFactor a ≥ workloadSortFactor b) = true →
        decide (workloadSortFactor b ≥ workloadSortFactor c) = true →
        decide (workloadSortFactor a ≥ workloadSortFactor c) = true := by
      intro a b c hab hbc
      rw [decide_eq_true_eq] at *
      exact le_trans hbc hab
    have htotal : ∀ a b : WorkloadInfo,
        (decide (workloadSortFactor a ≥ workloadSortFactor b)
          || decide (workloadSortFactor b ≥ workloadSortFactor a)) = true := by
      intro a b
      rcases le_total (workloadSortFactor a) (workloadSortFactor b) with h | h <;> simp [h]
    refine ⟨List.mergeSort_perm ws _, ?_⟩
    exact (List.sorted_mergeSort htrans htotal ws).imp (fun hab => by simpa using hab)
  · intro ps
    have htrans : ∀ a b c : PodInfo,
        decide (a.CPURequest ≥ b.CPURequest) = true →
        decide (b.CPURequest ≥ c.CPURequest) = true →
        decide (a.CPURequest ≥ c.CPURequest) = true := by
      intro a b c hab hbc
      rw [decide_eq_true_eq] at *
      omega
    have htotal : ∀ a b : PodInfo,
        (decide (a.CPURequest ≥ b.CPURequest) || decide (b.CPURequest ≥ a.CPURequest)) = true := by
      intro a b
      rcases le_total a.CPURequest b.CPURequest with h | h <;> simp [h]
    refine ⟨List.mergeSort_perm ps _, ?_⟩
    exact (List.sorted_mergeSort htrans htotal ps).imp (fun hab => by simpa using hab)

/-- Witness for C9: the four key values and the resulting strict ordering on
concrete workloads. -/
theorem workloadSortFactor_spec_witness :
    workloadSortFactor wNoReq = -1
    ∧ workloadSortFactor wUnavail = -(1 / 2)
    ∧ workloadSortFactor wZeroActual = 10 ^ 15
    ∧ workloadSortFactor wRatioSmall = 4
    ∧ workloadSortFactor wNoReq < workloadSortFactor wUnavail
    ∧ workloadSortFactor wUnavail < workloadSortFactor wRatioSmall
    ∧ workloadSortFactor wRatioSmall < workloadSortFactor wZeroActual :=
  ⟨(workloadSortFactor_spec wNoReq wNoReq).1 rfl,
   (workloadSortFactor_spec wUnavail wUnavail).2.1 (by norm_num [wUnavail]) rfl,
   (workloadSortFactor_spec wZeroActual wZeroActual).2.2.1 (by norm_num [wZeroActual]) rfl rfl,
   by
    rw [(workloadSortFactor_spec wRatioSmall wRatioSmall).2.2.2.1
      (by norm_num [wRatioSmall]) rfl (by norm_num [wRatioSmall])]
    norm_num [wRatioSmall],
   (workloadSortFactor_spec wNoReq wUnavail).2.2.2.2.1 rfl (by norm_num [wUnavail])
     (by norm_num [wUnavail]),
   (workloadSortFactor_spec wUnavail wRatioSmall).2.2.2.2.2.1 (by norm_num [wUnavail]) rfl
     (by norm_num [wRatioSmall]) rfl (by norm_num [wRatioSmall]),
   (workloadSortFactor_spec wZeroActual wRatioSmall).2.2.2.2.2.2.1
     (by norm_num [wZeroActual]) rfl rfl (by norm_num [wRatioSmall]) rfl
     (by norm_num [wRatioSmall]) (by norm_num [wRatioSmall])⟩

end Kusa
